import Mathlib

/-!
Shallow embedding of `extract-cron.py` (Boston parking-ticket scraper),
covering the cursor/state machine of its `main` loop and the state-file
helpers, together with theorems settling the specification claims.

Modelling conventions:
* Python arbitrary-precision non-negative identifiers and counters are `Nat`;
  the one loader whose claim quantifies over arbitrary file content
  (`load_int`) is modelled over `Int`.
* A state file is modelled by its loaded value.  This is faithful because
  every read of a given file uses a fixed default (`load_int(p, d)` /
  `load_str(p, d)`), so an absent or unparsable file is observationally
  identical to a file holding the default value.
* The remote endpoint (`requests.get` inside `fetch_search`) is an oracle
  `probe : Nat → Outcome` giving the classified outcome per identifier;
  `fetch_search`'s classification of status codes is the `Outcome` type.
  A JSON payload that is not a dict or has no `data` list is the `ok []`
  case, exactly as `payload.get("data") if isinstance(payload, dict) else
  None` followed by `if not data` treats it.
* `datetime.fromisoformat` is external standard-library code; `fromIso`
  models the subset of its input language the scraper's data uses
  (`YYYY-MM-DD`, optionally `THH:MM:SS`, optionally a `+00:00` offset as
  produced by `parse_date`'s `Z` replacement); day-of-month is validated
  against 31 uniformly.  `parse_date`'s own logic (empty check, `Z`
  replacement, exception-to-None) is translated from the source.
* The dedup file `seen_vids.txt` holds decimal strings of identifiers;
  since `str` is injective on the identifiers involved, the set is
  modelled as a `List Nat` with guarded insertion.
-/

/-- A parsed timestamp, the shape `datetime.fromisoformat` yields for the
scraper's data (naive, second precision). -/
structure DT where
  year : Nat
  month : Nat
  day : Nat
  hour : Nat
  minute : Nat
  second : Nat
deriving DecidableEq

/-- Strict chronological order on timestamps (Python `dt > newest_date`
compares field-lexicographically for these values). -/
def dtLt (a b : DT) : Bool :=
  if a.year ≠ b.year then Nat.blt a.year b.year
  else if a.month ≠ b.month then Nat.blt a.month b.month
  else if a.day ≠ b.day then Nat.blt a.day b.day
  else if a.hour ≠ b.hour then Nat.blt a.hour b.hour
  else if a.minute ≠ b.minute then Nat.blt a.minute b.minute
  else Nat.blt a.second b.second

/-- Python whitespace for `str.strip()` (the ASCII subset the state files
can contain). -/
def isPySpace (c : Char) : Bool :=
  c = ' ' || c = '\t' || c = '\n' || c = '\r' || c = '\x0b' || c = '\x0c'

def stripChars (cs : List Char) : List Char :=
  ((cs.dropWhile isPySpace).reverse.dropWhile isPySpace).reverse

/-- `str.strip()`. -/
def pyStrip (s : String) : String :=
  ⟨stripChars s.data⟩

/-- `str.lower()` (the data involved is ASCII). -/
def lowerStr (s : String) : String :=
  ⟨s.data.map Char.toLower⟩

def digitChar (n : Nat) : Char :=
  Char.ofNat (48 + n % 10)

def pad2Chars (n : Nat) : List Char :=
  [digitChar (n / 10), digitChar n]

def pad4Chars (n : Nat) : List Char :=
  [digitChar (n / 1000), digitChar (n / 100), digitChar (n / 10), digitChar n]

/-- `datetime.isoformat()` for a second-precision naive timestamp
(`%04d-%02d-%02dT%02d:%02d:%02d` on in-range fields). -/
def DT.isoformat (d : DT) : String :=
  ⟨pad4Chars d.year ++ '-' :: pad2Chars d.month ++ '-' :: pad2Chars d.day ++
    'T' :: pad2Chars d.hour ++ ':' :: pad2Chars d.minute ++
    ':' :: pad2Chars d.second⟩

def digitVal (c : Char) : Option Nat :=
  if 48 ≤ c.toNat ∧ c.toNat ≤ 57 then some (c.toNat - 48) else none

def parseNatAux : List Char → Nat → Option Nat
  | [], acc => some acc
  | c :: rest, acc =>
      match digitVal c with
      | some d => parseNatAux rest (10 * acc + d)
      | none => none

/-- A non-empty all-digit character run as a number. -/
def parseNatChars (cs : List Char) : Option Nat :=
  match cs with
  | [] => none
  | _ :: _ => parseNatAux cs 0

/-- Split on a single-character separator (`str.split(sep)` semantics). -/
def splitOnChar (sep : Char) (cs : List Char) : List (List Char) :=
  cs.foldr
    (fun c acc =>
      if c = sep then [] :: acc
      else
        match acc with
        | g :: gs => (c :: g) :: gs
        | [] => [[c]])
    [[]]

def parseFixedNat (cs : List Char) (len : Nat) : Option Nat :=
  if cs.length = len then parseNatChars cs else none

def parseYMD (cs : List Char) : Option (Nat × Nat × Nat) :=
  match splitOnChar '-' cs with
  | [y, m, d] => do
      let yn ← parseFixedNat y 4
      let mn ← parseFixedNat m 2
      let dn ← parseFixedNat d 2
      if 1 ≤ mn ∧ mn ≤ 12 ∧ 1 ≤ dn ∧ dn ≤ 31 then pure (yn, mn, dn) else none
  | _ => none

def parseHMS (cs : List Char) : Option (Nat × Nat × Nat) :=
  match splitOnChar ':' cs with
  | [h, m, sec] => do
      let hn ← parseFixedNat h 2
      let mn ← parseFixedNat m 2
      let sn ← parseFixedNat sec 2
      if hn ≤ 23 ∧ mn ≤ 59 ∧ sn ≤ 59 then pure (hn, mn, sn) else none
  | _ => none

/-- Strip one trailing `+00:00` offset (the form `parse_date` substitutes
for a trailing `Z`). -/
def dropSuffixUTC (cs : List Char) : List Char :=
  let r := cs.reverse
  if r.take 6 = ['0', '0', ':', '0', '0', '+'] then (r.drop 6).reverse else cs

def fromIsoChars (cs : List Char) : Option DT :=
  match splitOnChar 'T' (dropSuffixUTC cs) with
  | [d] => do
      let (y, m, dd) ← parseYMD d
      pure ⟨y, m, dd, 0, 0, 0⟩
  | [d, t] => do
      let (y, m, dd) ← parseYMD d
      let (h, mi, sec) ← parseHMS t
      pure ⟨y, m, dd, h, mi, sec⟩
  | _ => none

/-- Model of `datetime.fromisoformat` on the scraper's input language:
a date `YYYY-MM-DD`, optionally followed by `T` and a time `HH:MM:SS`,
optionally carrying the `+00:00` offset that `parse_date` substitutes for
a trailing `Z`; day-of-month is validated against 31 uniformly. -/
def fromIso (s : String) : Option DT :=
  fromIsoChars s.data

/-- `s.replace("Z", "+00:00")` (single-character pattern). -/
def replaceZ (s : String) : String :=
  ⟨s.data.foldr
    (fun c acc =>
      if c = 'Z' then '+' :: '0' :: '0' :: ':' :: '0' :: '0' :: acc
      else c :: acc)
    []⟩

/-- `parse_date` from the source: empty input is `None`, a trailing-`Z`
form is rewritten to `+00:00`, and any parse failure (the `except`
branch) is `None`. -/
def parse_date (s : String) : Option DT :=
  if s = "" then none
  else fromIso (replaceZ s)

/-- Python `int(...)`: strip whitespace, then an optional sign and a
non-empty digit run. -/
def pyParseInt (s : String) : Option Int :=
  match stripChars s.data with
  | [] => none
  | '-' :: rest => (parseNatChars rest).map (fun n => -(n : Int))
  | '+' :: rest => (parseNatChars rest).map (fun n => (n : Int))
  | cs => (parseNatChars cs).map (fun n => (n : Int))

/-- `load_int` from the source; `none` content stands for an absent file,
`some c` for a file holding `c`.  Parse failure falls back to the default
(the `except Exception` branch); `int()` itself strips, so the source's
`.strip()` is absorbed into `pyParseInt`. -/
def load_int (content : Option String) (default : Int) : Int :=
  match content with
  | none => default
  | some c => (pyParseInt c).getD default

/-- `load_str` from the source. -/
def load_str (content : Option String) (default : String) : String :=
  match content with
  | none => default
  | some c => pyStrip c

/-- The fields of a primary record (`data[0]`) that the scraper reads;
`none` stands for an absent or JSON-null field. -/
structure Rec where
  userdef1_label : Option String
  userdef8_label : Option String
  userdef1 : Option String
  userdef8 : Option String
  description : Option String
  date_utc : Option String
  date : Option String
  zonenumber : Option String
  lpn : Option String
deriving DecidableEq

/-- Python `a or b` on optional strings: `a` unless it is falsy. -/
def pyOr (a b : Option String) : Option String :=
  match a with
  | some s => if s = "" then b else some s
  | none => b

/-- `KEYWORDS` from the source. -/
def KEYWORDS : List String :=
  ["resident permit only", "no stopping or standing", "meter fee unpaid",
   "no valid", "within 20 feet of intersection", "hydrant", "driveway",
   "sidewalk", "bike or bus lane", "over posted limit", "double parking",
   "no parking", "parking only", "street cleaning"]

def isPrefixChars : List Char → List Char → Bool
  | [], _ => true
  | _ :: _, [] => false
  | a :: as, b :: bs => a = b && isPrefixChars as bs

def containsChars (hay pat : List Char) : Bool :=
  match hay with
  | [] => pat.isEmpty
  | _ :: rest => isPrefixChars pat hay || containsChars rest pat

/-- Substring containment (`kw in desc` in Python). -/
def containsSub (s kw : String) : Bool :=
  containsChars s.data kw.data

/-- A user-defined field fails the scraper's null checks: Python
`not u` catches `None` and `""`; the tuple test catches whitespace-only
and literal `null`. -/
def strFieldBad (u : Option String) : Bool :=
  match u with
  | none => true
  | some s =>
      s = "" || lowerStr (pyStrip s) = "" || lowerStr (pyStrip s) = "null"

/-- `passes_filters` from the source. -/
def passes_filters (top : Rec) : Bool :=
  top.userdef1_label = some "Location" &&
  top.userdef8_label = some "Street Number" &&
  !strFieldBad top.userdef1 &&
  !strFieldBad top.userdef8 &&
  KEYWORDS.any (fun kw => containsSub (lowerStr (top.description.getD "")) kw)

/-- One CSV row of `filtered_boston_tickets.csv`. -/
structure Row where
  violation_number : Nat
  date_utc : String
  address : String
  zonenumber : String
  lpn : String
  description : String
deriving DecidableEq

/-- `extract_row` from the source. -/
def extract_row (vid : Nat) (top : Rec) : Row :=
  let num := pyStrip (top.userdef8.getD "")
  let name := pyStrip (top.userdef1.getD "")
  let address0 := pyStrip (num ++ " " ++ name)
  let address := if address0 = "" then address0 else address0 ++ ", Boston, MA"
  { violation_number := vid
    date_utc := (pyOr top.date_utc top.date).getD ""
    address := address
    zonenumber := top.zonenumber.getD ""
    lpn := top.lpn.getD ""
    description := top.description.getD "" }

/-- The classified outcome of `fetch_search` for one identifier.  `ok`
carries the payload's `data` list (empty when the payload is not a dict,
has no `data`, or `data` is null/empty). -/
inductive Outcome where
  | ok (data : List Rec)
  | notFound
  | forbidden
  | rateLimited
  | err
deriving DecidableEq

/-- The tunable parameters of the engine (`START_VID`, `CHUNK_SIZE`,
`PASS_LIMIT`, `GAP_THRESHOLD` in the source). -/
structure Config where
  startVid : Nat
  chunkSize : Nat
  passLimit : Nat
  gapThreshold : Nat
deriving DecidableEq

/-- The source's constant configuration. -/
def defaultConfig : Config :=
  { startVid := 831394104, chunkSize := 1000, passLimit := 2, gapThreshold := 10000 }

/-- The persisted state files, by loaded value: `last_vid.txt`,
`last_date.txt`, `last_valid_vid.txt`, `pass_count.txt`, `gap_count.txt`,
`seen_vids.txt`. -/
structure PState where
  vid : Nat
  dateStr : String
  lastValid : Nat
  passCount : Nat
  gapCount : Nat
  seen : List Nat
deriving DecidableEq

/-- The mutable locals of `main`'s while loop.  `written` accumulates the
rows already flushed to the CSV sink this invocation. -/
structure LoopSt where
  vid : Nat
  gaps : Nat
  lastValid : Nat
  seen : List Nat
  collected : List Row
  written : List Row
  newestDate : Option DT
  newestVid : Option Nat
  count403 : Nat
deriving DecidableEq

/-- Python `if dt and (newest_date is None or dt > newest_date)`. -/
def dtNewer (cur : Option DT) (d : DT) : Bool :=
  match cur with
  | none => true
  | some c => dtLt c d

/-- The `status == "ok"`, non-empty-`data` branch of the loop body
(filtering, collection, dedup, anchor and newest-date bookkeeping). -/
def onMatch (s : LoopSt) (top : Rec) : LoopSt :=
  let dt := parse_date ((pyOr top.date_utc top.date).getD "")
  if passes_filters top && !(s.seen.contains s.vid) then
    let row := extract_row s.vid top
    let s1 : LoopSt :=
      { s with gaps := 0, collected := s.collected ++ [row],
               seen := s.vid :: s.seen, lastValid := s.vid }
    match dt with
    | some d =>
        if dtNewer s.newestDate d then
          { s1 with newestDate := some d, newestVid := some s.vid }
        else s1
    | none => s1
  else { s with gaps := s.gaps + 1 }

/-- Result of the status dispatch for one identifier: continue the loop,
or break out of it (the five-403 early exit). -/
inductive StepRes where
  | step (s : LoopSt)
  | broke (s : LoopSt)
deriving DecidableEq

/-- The `if status == ...` chain of the loop body for one probe outcome,
including the identifier advance. -/
def dispatch (s : LoopSt) : Outcome → StepRes
  | .ok data =>
      match data with
      | [] => .step { s with gaps := s.gaps + 1, vid := s.vid + 1 }
      | top :: _ => .step { onMatch s top with vid := s.vid + 1 }
  | .notFound => .step { s with gaps := s.gaps + 1, vid := s.vid + 1 }
  | .forbidden =>
      if s.count403 + 1 ≥ 5 then .broke { s with count403 := s.count403 + 1 }
      else .step { s with count403 := s.count403 + 1, vid := s.vid + 1 }
  | .rateLimited => .step { s with vid := s.vid + 1 }
  | .err => .step { s with vid := s.vid + 1 }

/-- The rollback target: `last_valid_vid` if truthy, else a truthy
`newest_vid`, else `START_VID`. -/
def rollTarget (cfg : Config) (s : LoopSt) : Nat :=
  if s.lastValid ≠ 0 then s.lastValid
  else if s.newestVid.getD 0 ≠ 0 then s.newestVid.getD 0
  else cfg.startVid

/-- How the while loop ended: `finished` is both natural exhaustion of the
window and the five-403 break (both fall through to the post-loop code);
`rolledBack` is the gap-threshold `return`, carrying the loop state (gap
counter already reset) and the rolled-back position. -/
inductive LoopExit where
  | finished (s : LoopSt)
  | rolledBack (s : LoopSt) (newVid : Nat)
deriving DecidableEq

/-- The loop state an exit carries. -/
def LoopExit.st : LoopExit → LoopSt
  | .finished s => s
  | .rolledBack s _ => s

/-- The `while current_vid < end_vid` loop.  The fuel is `end_vid -
current_vid`: every non-exiting iteration advances `current_vid` by
exactly one, so the counter matches the loop condition.  After the
dispatch, the gap-threshold check fires the rollback, and then a full
pending batch (10 rows) is flushed to the sink. -/
def loop (cfg : Config) (probe : Nat → Outcome) : Nat → LoopSt → LoopExit
  | 0, s => .finished s
  | f + 1, s =>
    match dispatch s (probe s.vid) with
    | .broke s1 => .finished s1
    | .step s1 =>
      if s1.gaps ≥ cfg.gapThreshold then
        .rolledBack { s1 with gaps := 0 } (rollTarget cfg s1)
      else
        let s2 := if s1.collected.length ≥ 10
          then { s1 with written := s1.written ++ s1.collected, collected := [] }
          else s1
        loop cfg probe f s2

/-- The loop locals as initialised at the top of `main`. -/
def initLoopSt (st : PState) : LoopSt :=
  { vid := st.vid, gaps := st.gapCount, lastValid := st.lastValid,
    seen := st.seen, collected := [], written := [],
    newestDate := parse_date st.dateStr, newestVid := none, count403 := 0 }

/-- One invocation of `main`: returns the persisted state files and the
rows appended to the CSV sink, in order.  The rollback `return` persists
position, pass counter (0), gap counter (0) and the seen set, leaving the
valid-anchor and date files untouched and the pending batch unwritten;
the fall-through path flushes the remainder, persists the anchor, gap
counter and seen set, and runs the pass-management block. -/
def runMain (cfg : Config) (probe : Nat → Outcome) (st : PState) :
    PState × List Row :=
  let lastDate := parse_date st.dateStr
  let endVid := st.vid + cfg.chunkSize
  match loop cfg probe cfg.chunkSize (initLoopSt st) with
  | .rolledBack s nv =>
      ({ vid := nv, dateStr := st.dateStr, lastValid := st.lastValid,
         passCount := 0, gapCount := 0, seen := s.seen }, s.written)
  | .finished s =>
      let rows := s.written ++ s.collected
      let pc := st.passCount + 1
      if pc ≥ cfg.passLimit then
        match s.newestDate with
        | some nd =>
          if dtNewer lastDate nd then
            ({ vid := if s.newestVid.getD 0 ≠ 0 then s.newestVid.getD 0 else endVid,
               dateStr := nd.isoformat, lastValid := s.lastValid,
               passCount := 0, gapCount := s.gaps, seen := s.seen }, rows)
          else
            ({ vid := endVid, dateStr := st.dateStr, lastValid := s.lastValid,
               passCount := 0, gapCount := s.gaps, seen := s.seen }, rows)
        | none =>
            ({ vid := endVid, dateStr := st.dateStr, lastValid := s.lastValid,
               passCount := 0, gapCount := s.gaps, seen := s.seen }, rows)
      else
        ({ vid := st.vid, dateStr := st.dateStr, lastValid := s.lastValid,
           passCount := pc, gapCount := s.gaps, seen := s.seen }, rows)

/-- A sequence of invocations against successive persisted states,
returning the final state and all sink rows in order. -/
def runSeq (cfg : Config) (st : PState) : List (Nat → Outcome) → PState × List Row
  | [] => (st, [])
  | p :: ps =>
      let r1 := runMain cfg p st
      let r2 := runSeq cfg r1.1 ps
      (r2.1, r1.2 ++ r2.2)

/-- The identifiers of a row list. -/
def rowIds (rs : List Row) : List Nat :=
  rs.map Row.violation_number

/-- The loop state a step result carries. -/
def StepRes.st : StepRes → LoopSt
  | .step s => s
  | .broke s => s

/-! ### Concrete inputs used by the scenario theorems -/

/-- A record that passes the acceptance filter, carrying no timestamp. -/
def recA : Rec :=
  { userdef1_label := some "Location", userdef8_label := some "Street Number",
    userdef1 := some "Main St", userdef8 := some "12",
    description := some "resident permit only", date_utc := none, date := none,
    zonenumber := none, lpn := none }

/-- `recA` with a timestamp. -/
def recD : Rec := { recA with date_utc := some "2024-06-01T00:00:00" }

/-- A record rejected by the acceptance filter (no accepted keyword). -/
def recBad : Rec := { recA with description := some "tow fee" }

/-- `recBad` with a timestamp: fetched and timestamped but filtered out. -/
def recBadD : Rec := { recBad with date_utc := some "2024-06-01T00:00:00" }

def cfg9 : Config :=
  { startVid := 831394104, chunkSize := 5, passLimit := 2, gapThreshold := 3 }

def st9 : PState :=
  { vid := 1000, dateStr := "", lastValid := 831394104, passCount := 0,
    gapCount := 0, seen := [] }

def probe9 : Nat → Outcome := fun v => if v = 1003 then .ok [recA] else .ok []

def cfgC1 : Config :=
  { startVid := 7, chunkSize := 4, passLimit := 2, gapThreshold := 2 }

def stC1 : PState :=
  { vid := 100, dateStr := "", lastValid := 0, passCount := 0, gapCount := 0,
    seen := [] }

def probeC1 : Nat → Outcome := fun v => if v = 100 then .ok [recBadD] else .ok []

def cfg4 : Config :=
  { startVid := 1, chunkSize := 5, passLimit := 2, gapThreshold := 100 }

def st4 : PState :=
  { vid := 100, dateStr := "", lastValid := 500, passCount := 0, gapCount := 0,
    seen := [] }

def probe4 : Nat → Outcome := fun v => if v = 101 then .ok [recA] else .ok []

def cfg7 : Config :=
  { startVid := 1, chunkSize := 1, passLimit := 2, gapThreshold := 100 }

def st7 : PState :=
  { vid := 50, dateStr := "", lastValid := 3, passCount := 0, gapCount := 5,
    seen := [] }

def cfg3 : Config :=
  { startVid := 1, chunkSize := 8, passLimit := 2, gapThreshold := 100 }

def st3 : PState :=
  { vid := 200, dateStr := "", lastValid := 7, passCount := 0, gapCount := 0,
    seen := [] }

/-- Four 403s, a 404 at 204 interrupting the run, then 403s again. -/
def probe3 : Nat → Outcome := fun v =>
  if v = 204 then .notFound else if v ≤ 205 then .forbidden else .notFound

def probe8 : Nat → Outcome := fun _ => .forbidden

def cfg5 : Config :=
  { startVid := 1, chunkSize := 4, passLimit := 2, gapThreshold := 2 }

def st5 : PState :=
  { vid := 100, dateStr := "", lastValid := 0, passCount := 0, gapCount := 0,
    seen := [] }

def probe5 : Nat → Outcome := fun v => if v = 100 then .ok [recA] else .ok []

def cfg6 : Config :=
  { startVid := 1, chunkSize := 14, passLimit := 2, gapThreshold := 3 }

def st6 : PState :=
  { vid := 300, dateStr := "", lastValid := 0, passCount := 0, gapCount := 0,
    seen := [] }

def probe6 : Nat → Outcome := fun v => if v ≤ 310 then .ok [recA] else .ok []

def cfg2 : Config :=
  { startVid := 1, chunkSize := 3, passLimit := 2, gapThreshold := 100 }

def st2 : PState :=
  { vid := 10, dateStr := "2024-01-01T00:00:00", lastValid := 5, passCount := 1,
    gapCount := 0, seen := [] }

def probe2 : Nat → Outcome := fun v => if v = 11 then .ok [recD] else .ok []

/-- The all-empty window: every probe succeeds with no data. -/
def pEmpty : Nat → Outcome := fun _ => .ok []

def cfgW2 : Config :=
  { startVid := 1, chunkSize := 5, passLimit := 3, gapThreshold := 100 }

def stW2 : PState :=
  { vid := 40, dateStr := "", lastValid := 2, passCount := 0, gapCount := 0,
    seen := [] }

def stW8 : PState :=
  { vid := 20, dateStr := "", lastValid := 9, passCount := 1, gapCount := 0,
    seen := [] }

/-! ### Helper lemmas about the loop -/

theorem rollTarget_update (cfg : Config) (s : LoopSt) (g v : Nat) :
    rollTarget cfg { s with gaps := g, vid := v } = rollTarget cfg s := rfl

theorem onMatch_written (s : LoopSt) (top : Rec) :
    (onMatch s top).written = s.written := by
  unfold onMatch
  dsimp only
  split
  · split
    · split <;> rfl
    · rfl
  · rfl

theorem onMatch_pos (s : LoopSt) (top : Rec)
    (h : (passes_filters top && !(s.seen.contains s.vid)) = true) :
    (onMatch s top).collected = s.collected ++ [extract_row s.vid top] ∧
    (onMatch s top).seen = s.vid :: s.seen ∧
    (onMatch s top).written = s.written ∧
    (onMatch s top).lastValid = s.vid ∧
    (onMatch s top).gaps = 0 ∧
    s.vid ∉ s.seen := by
  have hmem : s.vid ∉ s.seen := by
    have h2 := (Bool.and_eq_true _ _).mp h
    simpa using h2.2
  unfold onMatch
  rw [if_pos h]
  refine ⟨?_, ?_, ?_, ?_, ?_, hmem⟩ <;>
    · dsimp only
      split
      · split <;> rfl
      · rfl

theorem onMatch_neg (s : LoopSt) (top : Rec)
    (h : (passes_filters top && !(s.seen.contains s.vid)) = false) :
    onMatch s top = { s with gaps := s.gaps + 1 } := by
  unfold onMatch
  rw [if_neg (by rw [h]; simp)]

theorem dispatch_vid_le (s : LoopSt) (o : Outcome) :
    s.vid ≤ (dispatch s o).st.vid := by
  cases o with
  | ok data =>
      cases data <;> simp [dispatch, StepRes.st]
  | notFound => simp [dispatch, StepRes.st]
  | forbidden =>
      simp only [dispatch]
      split <;> simp [StepRes.st]
  | rateLimited => simp [dispatch, StepRes.st]
  | err => simp [dispatch, StepRes.st]

theorem dispatch_lastValid_cases (s : LoopSt) (o : Outcome) :
    (dispatch s o).st.lastValid = s.lastValid ∨
    (dispatch s o).st.lastValid = s.vid := by
  cases o with
  | ok data =>
      cases data with
      | nil => simp [dispatch, StepRes.st]
      | cons top rest =>
          simp only [dispatch, StepRes.st]
          by_cases h : (passes_filters top && !(s.seen.contains s.vid)) = true
          · exact Or.inr (onMatch_pos s top h).2.2.2.1
          · rw [onMatch_neg s top (by simpa using h)]
            exact Or.inl rfl
  | notFound => simp [dispatch, StepRes.st]
  | forbidden =>
      simp only [dispatch]
      split <;> simp [StepRes.st]
  | rateLimited => simp [dispatch, StepRes.st]
  | err => simp [dispatch, StepRes.st]

theorem rowIds_append (a b : List Row) :
    rowIds (a ++ b) = rowIds a ++ rowIds b := by
  unfold rowIds
  exact List.map_append _ _ _

/-- The invariant tying the sink rows of one invocation to the
deduplication set: `A` is the seen set loaded at invocation start. -/
def SeenInv (A : List Nat) (s : LoopSt) : Prop :=
  (∀ i ∈ A, i ∈ s.seen) ∧
  (rowIds (s.written ++ s.collected)).Nodup ∧
  (∀ i ∈ rowIds (s.written ++ s.collected), i ∈ s.seen ∧ i ∉ A) ∧
  (A.Nodup → s.seen.Nodup)

theorem SeenInv_congr (A : List Nat) {s t : LoopSt}
    (hw : t.written = s.written) (hc : t.collected = s.collected)
    (hs : t.seen = s.seen) (h : SeenInv A s) : SeenInv A t := by
  unfold SeenInv at h ⊢
  rw [hw, hc, hs]
  exact h

theorem SeenInv_accept (A : List Nat) (s : LoopSt) (top : Rec)
    (h : SeenInv A s)
    (hacc : (passes_filters top && !(s.seen.contains s.vid)) = true) :
    SeenInv A (onMatch s top) := by
  obtain ⟨hc, hsn, hw, hlv, hg, hmem⟩ := onMatch_pos s top hacc
  obtain ⟨hA, hnd, hin, hn⟩ := h
  have hids : rowIds ((onMatch s top).written ++ (onMatch s top).collected) =
      rowIds (s.written ++ s.collected) ++ [s.vid] := by
    rw [hw, hc, ← List.append_assoc, rowIds_append]
    unfold rowIds
    simp [extract_row]
  refine ⟨?_, ?_, ?_, ?_⟩
  · intro i hi
    rw [hsn]
    exact List.mem_cons_of_mem _ (hA i hi)
  · rw [hids]
    have hvid : s.vid ∉ rowIds (s.written ++ s.collected) :=
      fun h2 => hmem (hin _ h2).1
    simp [List.nodup_append, hnd, hvid]
  · rw [hids, hsn]
    intro i hi
    rcases List.mem_append.mp hi with hold | hnew
    · exact ⟨List.mem_cons_of_mem _ (hin i hold).1, (hin i hold).2⟩
    · rw [List.mem_singleton] at hnew
      subst hnew
      refine ⟨List.mem_cons_self _ _, ?_⟩
      intro hiA
      exact hmem (hA _ hiA)
  · intro hAn
    rw [hsn]
    exact List.Nodup.cons hmem (hn hAn)

theorem SeenInv_dispatch (A : List Nat) (s : LoopSt) (o : Outcome)
    (h : SeenInv A s) : SeenInv A (dispatch s o).st := by
  cases o with
  | ok data =>
      cases data with
      | nil => exact SeenInv_congr A rfl rfl rfl h
      | cons top rest =>
          simp only [dispatch, StepRes.st]
          by_cases hacc : (passes_filters top && !(s.seen.contains s.vid)) = true
          · exact SeenInv_congr A rfl rfl rfl (SeenInv_accept A s top h hacc)
          · rw [onMatch_neg s top (by simpa using hacc)]
            exact SeenInv_congr A rfl rfl rfl h
  | notFound => exact SeenInv_congr A rfl rfl rfl h
  | forbidden =>
      simp only [dispatch]
      split
      · exact SeenInv_congr A rfl rfl rfl h
      · exact SeenInv_congr A rfl rfl rfl h
  | rateLimited => exact SeenInv_congr A rfl rfl rfl h
  | err => exact SeenInv_congr A rfl rfl rfl h

theorem SeenInv_flush (A : List Nat) (s : LoopSt) (h : SeenInv A s) :
    SeenInv A { s with written := s.written ++ s.collected, collected := [] } := by
  obtain ⟨hA, hnd, hin, hn⟩ := h
  refine ⟨hA, ?_, ?_, hn⟩
  · simpa using hnd
  · simpa using hin

theorem SeenInv_loop (cfg : Config) (probe : Nat → Outcome) (A : List Nat) :
    ∀ (f : Nat) (s : LoopSt), SeenInv A s →
      SeenInv A ((loop cfg probe f s).st) := by
  intro f
  induction f with
  | zero =>
      intro s h
      simpa [loop, LoopExit.st] using h
  | succ f ih =>
      intro s h
      have h1 := SeenInv_dispatch A s (probe s.vid) h
      rw [loop]
      cases hd : dispatch s (probe s.vid) with
      | broke s1 =>
          rw [hd] at h1
          simp only [StepRes.st] at h1
          simpa [LoopExit.st] using h1
      | step s1 =>
          rw [hd] at h1
          simp only [StepRes.st] at h1
          dsimp only
          by_cases hg : s1.gaps ≥ cfg.gapThreshold
          · rw [if_pos hg]
            simp only [LoopExit.st]
            exact SeenInv_congr A rfl rfl rfl h1
          · rw [if_neg hg]
            by_cases hfl : s1.collected.length ≥ 10
            · rw [if_pos hfl]
              exact ih _ (SeenInv_flush A s1 h1)
            · rw [if_neg hfl]
              exact ih _ h1

theorem runMain_eq_rolled (cfg : Config) (probe : Nat → Outcome) (st : PState)
    (s : LoopSt) (nv : Nat)
    (h : loop cfg probe cfg.chunkSize (initLoopSt st) = .rolledBack s nv) :
    runMain cfg probe st =
      ({ vid := nv, dateStr := st.dateStr, lastValid := st.lastValid,
         passCount := 0, gapCount := 0, seen := s.seen }, s.written) := by
  unfold runMain
  rw [h]

theorem runMain_fin (cfg : Config) (probe : Nat → Outcome) (st : PState)
    (s : LoopSt)
    (h : loop cfg probe cfg.chunkSize (initLoopSt st) = .finished s) :
    ∃ ps : PState, runMain cfg probe st = (ps, s.written ++ s.collected) ∧
      ps.lastValid = s.lastValid ∧ ps.gapCount = s.gaps ∧ ps.seen = s.seen := by
  unfold runMain
  rw [h]
  dsimp only
  split
  · split
    · split
      · exact ⟨_, rfl, rfl, rfl, rfl⟩
      · exact ⟨_, rfl, rfl, rfl, rfl⟩
    · exact ⟨_, rfl, rfl, rfl, rfl⟩
  · exact ⟨_, rfl, rfl, rfl, rfl⟩

theorem SeenInv_init (st : PState) : SeenInv st.seen (initLoopSt st) := by
  refine ⟨?_, ?_, ?_, ?_⟩
  · intro i hi
    exact hi
  · simp [initLoopSt, rowIds]
  · simp [initLoopSt, rowIds]
  · intro h
    exact h

theorem runMain_seen_inv (cfg : Config) (probe : Nat → Outcome) (st : PState) :
    (∀ i ∈ st.seen, i ∈ (runMain cfg probe st).1.seen) ∧
    (rowIds (runMain cfg probe st).2).Nodup ∧
    (∀ i ∈ rowIds (runMain cfg probe st).2,
      i ∈ (runMain cfg probe st).1.seen ∧ i ∉ st.seen) ∧
    (st.seen.Nodup → (runMain cfg probe st).1.seen.Nodup) := by
  have hinv := SeenInv_loop cfg probe st.seen cfg.chunkSize (initLoopSt st)
    (SeenInv_init st)
  cases hl : loop cfg probe cfg.chunkSize (initLoopSt st) with
  | finished s =>
      rw [hl] at hinv
      simp only [LoopExit.st] at hinv
      obtain ⟨hA, hnd, hin, hn⟩ := hinv
      obtain ⟨ps, heq, hlv, hgap, hseen⟩ := runMain_fin cfg probe st s hl
      rw [heq]
      dsimp only
      rw [hseen]
      exact ⟨hA, hnd, hin, hn⟩
  | rolledBack s nv =>
      rw [hl] at hinv
      simp only [LoopExit.st] at hinv
      obtain ⟨hA, hnd, hin, hn⟩ := hinv
      rw [runMain_eq_rolled cfg probe st s nv hl]
      dsimp only
      have hsub : List.Sublist (rowIds s.written)
          (rowIds (s.written ++ s.collected)) := by
        unfold rowIds
        exact (List.sublist_append_left s.written s.collected).map _
      refine ⟨hA, hnd.sublist hsub, ?_, hn⟩
      intro i hi
      exact hin i (hsub.mem hi)

theorem runSeq_seen_inv (cfg : Config) :
    ∀ (ps : List (Nat → Outcome)) (st : PState),
    (∀ i ∈ st.seen, i ∈ (runSeq cfg st ps).1.seen) ∧
    (rowIds (runSeq cfg st ps).2).Nodup ∧
    (∀ i ∈ rowIds (runSeq cfg st ps).2,
      i ∈ (runSeq cfg st ps).1.seen ∧ i ∉ st.seen) ∧
    (st.seen.Nodup → (runSeq cfg st ps).1.seen.Nodup) := by
  intro ps
  induction ps with
  | nil =>
      intro st
      simp [runSeq, rowIds]
  | cons p ps ih =>
      intro st
      obtain ⟨h1A, h1nd, h1in, h1n⟩ := runMain_seen_inv cfg p st
      obtain ⟨h2A, h2nd, h2in, h2n⟩ := ih (runMain cfg p st).1
      simp only [runSeq]
      refine ⟨?_, ?_, ?_, ?_⟩
      · intro i hi
        exact h2A i (h1A i hi)
      · rw [rowIds_append]
        refine List.Nodup.append h1nd h2nd ?_
        intro a ha hb
        exact (h2in a hb).2 ((h1in a ha).1)
      · rw [rowIds_append]
        intro i hi
        rcases List.mem_append.mp hi with h1 | h2
        · exact ⟨h2A i ((h1in i h1).1), (h1in i h1).2⟩
        · refine ⟨(h2in i h2).1, ?_⟩
          intro hiA
          exact (h2in i h2).2 (h1A i hiA)
      · intro hn
        exact h2n (h1n hn)

theorem natBlt_self (n : Nat) : Nat.blt n n = false := by
  rw [Bool.eq_false_iff]
  intro h
  exact Nat.lt_irrefl n (Nat.blt_eq.mp h)

theorem dtLt_irrefl (d : DT) : dtLt d d = false := by
  unfold dtLt
  simp [natBlt_self]

theorem LoopSt_eq_of (s : LoopSt) (v1 v2 g1 g2 : Nat) (hv : v1 = v2)
    (hg : g1 = g2) :
    ({ s with vid := v1, gaps := g1 } : LoopSt) =
      { s with vid := v2, gaps := g2 } := by
  rw [hv, hg]

theorem loop_empty_fin (cfg : Config) (probe : Nat → Outcome)
    (hp : ∀ v, probe v = .ok []) :
    ∀ (f : Nat) (s : LoopSt), s.collected = [] →
      s.gaps + f < cfg.gapThreshold →
      loop cfg probe f s =
        .finished { s with vid := s.vid + f, gaps := s.gaps + f } := by
  intro f
  induction f with
  | zero =>
      intro s hc hlt
      simp [loop]
  | succ f ih =>
      intro s hc hlt
      rw [loop, hp s.vid]
      dsimp only [dispatch]
      rw [if_neg (show ¬ s.gaps + 1 ≥ cfg.gapThreshold by omega)]
      rw [if_neg (show ¬ s.collected.length ≥ 10 by rw [hc]; simp)]
      have hih := ih { s with gaps := s.gaps + 1, vid := s.vid + 1 }
        (by dsimp only; exact hc) (by dsimp only; omega)
      rw [hih]
      congr 1
      dsimp only
      exact LoopSt_eq_of s _ _ _ _ (by omega) (by omega)

theorem loop_empty_roll (cfg : Config) (probe : Nat → Outcome)
    (hp : ∀ v, probe v = .ok []) :
    ∀ (f : Nat) (s : LoopSt), s.collected = [] →
      s.gaps < cfg.gapThreshold → cfg.gapThreshold ≤ s.gaps + f →
      loop cfg probe f s =
        .rolledBack
          { s with vid := s.vid + (cfg.gapThreshold - s.gaps), gaps := 0 }
          (rollTarget cfg s) := by
  intro f
  induction f with
  | zero =>
      intro s hc hlt hge
      exfalso
      omega
  | succ f ih =>
      intro s hc hlt hge
      rw [loop, hp s.vid]
      dsimp only [dispatch]
      by_cases hcross : cfg.gapThreshold ≤ s.gaps + 1
      · rw [if_pos (show s.gaps + 1 ≥ cfg.gapThreshold from hcross)]
        congr 1
        exact LoopSt_eq_of s _ _ _ _ (by omega) rfl
      · rw [if_neg (show ¬ s.gaps + 1 ≥ cfg.gapThreshold from hcross)]
        rw [if_neg (show ¬ s.collected.length ≥ 10 by rw [hc]; simp)]
        have hih := ih { s with gaps := s.gaps + 1, vid := s.vid + 1 }
          (by dsimp only; exact hc) (by dsimp only; omega) (by dsimp only; omega)
        rw [hih]
        congr 1
        dsimp only
        exact LoopSt_eq_of s _ _ _ _ (by omega) rfl

theorem loop_lastValid_bound (cfg : Config) (probe : Nat → Outcome)
    (a b : Nat) :
    ∀ (f : Nat) (s : LoopSt), b ≤ s.vid →
      (s.lastValid = a ∨ b ≤ s.lastValid) →
      ((loop cfg probe f s).st.lastValid = a ∨
        b ≤ (loop cfg probe f s).st.lastValid) := by
  intro f
  induction f with
  | zero =>
      intro s hb h
      simpa [loop, LoopExit.st] using h
  | succ f ih =>
      intro s hb h
      have hvid := dispatch_vid_le s (probe s.vid)
      have hlv := dispatch_lastValid_cases s (probe s.vid)
      rw [loop]
      cases hd : dispatch s (probe s.vid) with
      | broke s1 =>
          rw [hd] at hvid hlv
          simp only [StepRes.st] at hvid hlv
          dsimp only
          simp only [LoopExit.st]
          rcases hlv with h1 | h1
          · rw [h1]
            exact h
          · right
            rw [h1]
            exact hb
      | step s1 =>
          rw [hd] at hvid hlv
          simp only [StepRes.st] at hvid hlv
          dsimp only
          have hb1 : b ≤ s1.vid := le_trans hb hvid
          have h1 : s1.lastValid = a ∨ b ≤ s1.lastValid := by
            rcases hlv with h1 | h1
            · rw [h1]
              exact h
            · right
              rw [h1]
              exact hb
          by_cases hg : s1.gaps ≥ cfg.gapThreshold
          · rw [if_pos hg]
            simpa [LoopExit.st] using h1
          · rw [if_neg hg]
            by_cases hfl : s1.collected.length ≥ 10
            · rw [if_pos hfl]
              exact ih _ (by simpa using hb1) (by simpa using h1)
            · rw [if_neg hfl]
              exact ih _ hb1 h1

theorem runMain_fin_rescan (cfg : Config) (probe : Nat → Outcome)
    (st : PState) (s : LoopSt)
    (h : loop cfg probe cfg.chunkSize (initLoopSt st) = .finished s)
    (hp : st.passCount + 1 < cfg.passLimit) :
    runMain cfg probe st =
      ({ vid := st.vid, dateStr := st.dateStr, lastValid := s.lastValid,
         passCount := st.passCount + 1, gapCount := s.gaps, seen := s.seen },
       s.written ++ s.collected) := by
  unfold runMain
  rw [h]
  dsimp only
  rw [if_neg (by omega)]

theorem runMain_fin_advance_stale (cfg : Config) (probe : Nat → Outcome)
    (st : PState) (s : LoopSt)
    (h : loop cfg probe cfg.chunkSize (initLoopSt st) = .finished s)
    (hp : cfg.passLimit ≤ st.passCount + 1)
    (hnd : s.newestDate = parse_date st.dateStr) :
    runMain cfg probe st =
      ({ vid := st.vid + cfg.chunkSize, dateStr := st.dateStr,
         lastValid := s.lastValid, passCount := 0, gapCount := s.gaps,
         seen := s.seen }, s.written ++ s.collected) := by
  unfold runMain
  rw [h]
  dsimp only
  rw [if_pos hp, hnd]
  cases hpd : parse_date st.dateStr with
  | none => rfl
  | some d =>
      dsimp only
      rw [if_neg (by simp [dtNewer, dtLt_irrefl])]

theorem runMain_empty (cfg : Config) (probe : Nat → Outcome) (st : PState)
    (hp : ∀ v, probe v = .ok [])
    (hg : st.gapCount + cfg.chunkSize < cfg.gapThreshold) :
    runMain cfg probe st =
      (if cfg.passLimit ≤ st.passCount + 1 then
        { vid := st.vid + cfg.chunkSize, dateStr := st.dateStr,
          lastValid := st.lastValid, passCount := 0,
          gapCount := st.gapCount + cfg.chunkSize, seen := st.seen }
       else
        { vid := st.vid, dateStr := st.dateStr, lastValid := st.lastValid,
          passCount := st.passCount + 1,
          gapCount := st.gapCount + cfg.chunkSize, seen := st.seen }, []) := by
  have hloop := loop_empty_fin cfg probe hp cfg.chunkSize (initLoopSt st) rfl
    (by simpa [initLoopSt] using hg)
  by_cases hpass : cfg.passLimit ≤ st.passCount + 1
  · rw [if_pos hpass]
    rw [runMain_fin_advance_stale cfg probe st _ hloop hpass (by simp [initLoopSt])]
    rfl
  · rw [if_neg hpass]
    rw [runMain_fin_rescan cfg probe st _ hloop (by omega)]
    rfl

theorem loop_succ_step (cfg : Config) (probe : Nat → Outcome) (f : Nat)
    (s s1 : LoopSt) (hd : dispatch s (probe s.vid) = .step s1)
    (hg : s1.gaps < cfg.gapThreshold) (hfl : s1.collected.length < 10) :
    loop cfg probe (f + 1) s = loop cfg probe f s1 := by
  rw [loop, hd]
  dsimp only
  rw [if_neg (by omega)]
  rw [if_neg (by omega)]

/-- An invocation whose whole window is gap outcomes, with enough gap
pressure to cross the threshold and a truthy `last_valid_vid`: the
rollback fires, position comes back to the anchor, the gap and pass
counters are persisted as zero, and nothing is written. -/
theorem runMain_empty_roll (cfg : Config) (probe : Nat → Outcome)
    (st : PState) (hε : ∀ v, probe v = .ok []) (hL : st.lastValid ≠ 0)
    (hg0 : st.gapCount < cfg.gapThreshold)
    (hc : cfg.gapThreshold ≤ st.gapCount + cfg.chunkSize) :
    runMain cfg probe st =
      ({ vid := st.lastValid, dateStr := st.dateStr,
         lastValid := st.lastValid, passCount := 0, gapCount := 0,
         seen := st.seen }, []) := by
  have hloop := loop_empty_roll cfg probe hε cfg.chunkSize (initLoopSt st) rfl
    (by dsimp only [initLoopSt]; exact hg0)
    (by dsimp only [initLoopSt]; omega)
  have htar : rollTarget cfg (initLoopSt st) = st.lastValid := by
    unfold rollTarget
    dsimp only [initLoopSt]
    rw [if_pos hL]
  rw [runMain_eq_rolled cfg probe st _ _ hloop, htar]
  rfl

/-! ### Claim theorems -/

/-- C1 (counterexample): the claim's rollback rule (2) says a record with
a newer timestamp observed this run counts even if filtered out.  In the
code, `newest_vid` is set only for newly accepted records: with
`last_valid_vid = 0` and the only observed record (at 100, with a parsed
timestamp) rejected by the filter, the rollback goes to the configured
start value 7, not to identifier 100 as the claim requires. -/
theorem c1_rule2_counterexample :
    probeC1 100 = Outcome.ok [recBadD] ∧
    passes_filters recBadD = false ∧
    parse_date ((pyOr recBadD.date_utc recBadD.date).getD "") =
      some ⟨2024, 6, 1, 0, 0, 0⟩ ∧
    stC1.lastValid = 0 ∧ cfgC1.startVid = 7 ∧
    runMain cfgC1 probeC1 stC1 =
      ({ vid := 7, dateStr := "", lastValid := 0, passCount := 0,
         gapCount := 0, seen := [] }, []) ∧
    (runMain cfgC1 probeC1 stC1).1.vid ≠ 100 := by decide

/-- C1 (amended): when `gap_threshold` consecutive non-matches occur from
the start of the window and `last_valid_vid` is truthy (nonzero — which
includes its `START_VID` load default), the invocation ends immediately
with `position = last_valid_vid`, `gap_count = 0`, `pass_count = 0`, the
state persisted and nothing written.  Rule (2) of the resolution order
concerns only the newest-timestamp record *newly accepted* this run, not
filtered-out or already-seen records. -/
theorem c1_gap_rollback_amended (cfg : Config) (probe : Nat → Outcome)
    (st : PState) (hε : ∀ v, probe v = .ok []) (hL : st.lastValid ≠ 0)
    (hg0 : st.gapCount < cfg.gapThreshold)
    (hc : cfg.gapThreshold ≤ st.gapCount + cfg.chunkSize) :
    runMain cfg probe st =
      ({ vid := st.lastValid, dateStr := st.dateStr,
         lastValid := st.lastValid, passCount := 0, gapCount := 0,
         seen := st.seen }, []) :=
  runMain_empty_roll cfg probe st hε hL hg0 hc

/-- C1 (witness): the amended rollback theorem at a concrete input. -/
theorem c1_gap_rollback_witness :
    runMain cfg9 pEmpty st9 =
      ({ vid := 831394104, dateStr := "", lastValid := 831394104,
         passCount := 0, gapCount := 0, seen := [] }, []) ∧
    st9.lastValid ≠ 0 :=
  ⟨c1_gap_rollback_amended cfg9 pEmpty st9 (fun _ => rfl) (by decide)
    (by decide) (by decide), by decide⟩

/-- C3 (code_bug evaluation): the 403 counter is cumulative, never reset.
The window yields four 403s, a 404 at 204 interrupting the run, then a
fifth 403 at 205.  The invocation still terminates there: the persisted
gap counter is 1 (only the 404 counted), showing 206 and 207 — both 404s
that would have raised it to 3 — were never probed, although no run of
five *consecutive* 403s occurred. -/
theorem c3_forbidden_cumulative :
    probe3 200 = Outcome.forbidden ∧ probe3 201 = Outcome.forbidden ∧
    probe3 202 = Outcome.forbidden ∧ probe3 203 = Outcome.forbidden ∧
    probe3 204 = Outcome.notFound ∧ probe3 205 = Outcome.forbidden ∧
    probe3 206 = Outcome.notFound ∧ probe3 207 = Outcome.notFound ∧
    runMain cfg3 probe3 st3 =
      ({ vid := 200, dateStr := "", lastValid := 7, passCount := 1,
         gapCount := 1, seen := [] }, []) := by decide

/-- C4 (counterexample): `last_valid_position` can move backward across
invocations.  From a state whose persisted anchor is 500, a re-scan
window starting at 100 newly accepts a (late-arriving) record at 101;
the persisted anchor drops from 500 to 101. -/
theorem c4_anchor_counterexample :
    st4.lastValid = 500 ∧
    101 ∈ rowIds (runMain cfg4 probe4 st4).2 ∧
    (runMain cfg4 probe4 st4).1.lastValid = 101 ∧
    (runMain cfg4 probe4 st4).1.lastValid < st4.lastValid := by decide

/-- C4 (amended): `last_valid_position` is non-decreasing over an
invocation whenever the window starts at or after the current anchor
(every in-run update sets it to the probe position, which is at least the
window start; a gap rollback leaves the persisted anchor untouched).  It
can decrease only when a re-scan accepts a record below the previously
persisted anchor. -/
theorem c4_anchor_monotone_amended (cfg : Config) (probe : Nat → Outcome)
    (st : PState) (h : st.lastValid ≤ st.vid) :
    st.lastValid ≤ (runMain cfg probe st).1.lastValid := by
  cases hl : loop cfg probe cfg.chunkSize (initLoopSt st) with
  | rolledBack s nv =>
      rw [runMain_eq_rolled cfg probe st s nv hl]
  | finished s =>
      obtain ⟨ps, heq, hlv, _, _⟩ := runMain_fin cfg probe st s hl
      rw [heq]
      dsimp only
      rw [hlv]
      have hb := loop_lastValid_bound cfg probe st.lastValid st.lastValid
        cfg.chunkSize (initLoopSt st) (by dsimp only [initLoopSt]; exact h)
        (Or.inl (by dsimp only [initLoopSt]))
      rw [hl] at hb
      simp only [LoopExit.st] at hb
      rcases hb with h1 | h1
      · rw [h1]
      · exact h1

/-- C4 (witness): the amended monotonicity theorem at a concrete input. -/
theorem c4_anchor_monotone_witness :
    st3.lastValid ≤ st3.vid ∧
    st3.lastValid ≤ (runMain cfg3 probe3 st3).1.lastValid :=
  ⟨by decide, c4_anchor_monotone_amended cfg3 probe3 st3 (by decide)⟩

/-- C9: from `{position 1000, pass 0, gap 0}` with chunk 5 and gap
threshold 3, a window of `[empty, empty, empty, match(accepted), empty]`
rolls back after position 1002.  `last_valid_vid` was loaded from an
absent file, i.e. as its default `START_VID`; the invocation ends with
the position reset to the configured start value 831394104, the counters
zeroed and zero rows written (the match at 1003 is never reached). -/
theorem c9_scenario :
    probe9 1000 = Outcome.ok [] ∧ probe9 1001 = Outcome.ok [] ∧
    probe9 1002 = Outcome.ok [] ∧ probe9 1003 = Outcome.ok [recA] ∧
    passes_filters recA = true ∧ probe9 1004 = Outcome.ok [] ∧
    cfg9.startVid = 831394104 ∧ st9.lastValid = cfg9.startVid ∧
    runMain cfg9 probe9 st9 =
      ({ vid := 831394104, dateStr := "", lastValid := 831394104,
         passCount := 0, gapCount := 0, seen := [] }, []) := by decide

/-- C10: the state loaders supply defaults instead of raising: an absent
integer file loads as its default, unparsable integer content loads as
the default, an absent date file loads (via the empty-string default) as
an absent timestamp, and unparsable date content loads as an absent
timestamp.  All loaders are total functions. -/
theorem c10_loader_defaults :
    (∀ d : Int, load_int none d = d) ∧
    (∀ (c : String) (d : Int), pyParseInt c = none → load_int (some c) d = d) ∧
    parse_date (load_str none "") = none ∧
    (∀ s : String, fromIso (replaceZ s) = none → parse_date s = none) := by
  refine ⟨fun d => rfl, ?_, rfl, ?_⟩
  · intro c d h
    simp [load_int, h]
  · intro s h
    unfold parse_date
    split
    · rfl
    · exact h

/-- C10 (witness): the loader-default theorem at concrete inputs. -/
theorem c10_loader_defaults_witness :
    load_int none 7 = 7 ∧ load_int (some "12abc") 7 = 7 ∧
    parse_date (load_str none "") = none ∧ parse_date "garbage" = none :=
  ⟨c10_loader_defaults.1 7, c10_loader_defaults.2.1 "12abc" 7 (by decide),
   c10_loader_defaults.2.2.1, c10_loader_defaults.2.2.2 "garbage" (by decide)⟩

/-- C5 (counterexample): a filter-passing record for identifier 100 is
presented in two consecutive invocations.  The first invocation accepts
it but ends in a gap rollback with the row still pending, so the row is
discarded while 100 is persisted to the deduplication set; the second
invocation dedups it.  The Sink ends with zero rows for 100, not exactly
one as the claim requires. -/
theorem c5_dedup_counterexample :
    passes_filters recA = true ∧
    probe5 100 = Outcome.ok [recA] ∧ st5.seen = [] ∧
    runSeq cfg5 st5 [probe5, probe5] =
      ({ vid := 1, dateStr := "", lastValid := 0, passCount := 0,
         gapCount := 0, seen := [100] }, []) ∧
    (rowIds (runSeq cfg5 st5 [probe5, probe5]).2).count 100 = 0 := by decide

/-- C5 (amended): across any sequence of invocations from a duplicate-free
deduplication set, the Sink receives each identifier at most once — and
exactly once if it receives it at all — every written identifier is a
fresh one recorded exactly once in the persisted deduplication set, and
the set stays duplicate-free.  (A matching record presented twice yields
exactly one Sink row provided the accepting invocation is not terminated
by a gap rollback with the row still pending; that path discards the
pending batch.) -/
theorem c5_dedup_amended (cfg : Config) (st : PState)
    (ps : List (Nat → Outcome)) (h : st.seen.Nodup) :
    (rowIds (runSeq cfg st ps).2).Nodup ∧
    (runSeq cfg st ps).1.seen.Nodup ∧
    ∀ i ∈ rowIds (runSeq cfg st ps).2,
      i ∈ (runSeq cfg st ps).1.seen ∧ i ∉ st.seen ∧
      (rowIds (runSeq cfg st ps).2).count i = 1 ∧
      ((runSeq cfg st ps).1.seen).count i = 1 := by
  obtain ⟨hA, hnd, hin, hn⟩ := runSeq_seen_inv cfg ps st
  refine ⟨hnd, hn h, ?_⟩
  intro i hi
  exact ⟨(hin i hi).1, (hin i hi).2, List.count_eq_one_of_mem hnd hi,
    List.count_eq_one_of_mem (hn h) (hin i hi).1⟩

/-- C5 (witness): the amended dedup theorem at a concrete input (one
invocation accepting identifier 101). -/
theorem c5_dedup_witness :
    (rowIds (runSeq cfg4 st4 [probe4]).2).Nodup ∧
    (runSeq cfg4 st4 [probe4]).1.seen.Nodup ∧
    ∀ i ∈ rowIds (runSeq cfg4 st4 [probe4]).2,
      i ∈ (runSeq cfg4 st4 [probe4]).1.seen ∧ i ∉ st4.seen ∧
      (rowIds (runSeq cfg4 st4 [probe4]).2).count i = 1 ∧
      ((runSeq cfg4 st4 [probe4]).1.seen).count i = 1 :=
  c5_dedup_amended cfg4 st4 [probe4] (by decide)

/-- C6 (counterexample): a gap rollback with a non-empty pending batch
does not make every record accepted in that run unwritten.  Here eleven
records (300–310) are accepted; the first ten were flushed as a full
batch before the rollback and are in the Sink; only the pending row for
310 is discarded (310 is in the persisted dedup set but not in the
Sink).  The zeroed counters and the rolled-back position 310 show the
invocation ended via the gap rollback. -/
theorem c6_discard_counterexample :
    (300 : Nat) ∉ st6.seen ∧
    300 ∈ rowIds (runMain cfg6 probe6 st6).2 ∧
    310 ∈ (runMain cfg6 probe6 st6).1.seen ∧
    310 ∉ rowIds (runMain cfg6 probe6 st6).2 ∧
    (runMain cfg6 probe6 st6).1.passCount = 0 ∧
    (runMain cfg6 probe6 st6).1.gapCount = 0 ∧
    (runMain cfg6 probe6 st6).1.vid = 310 := by decide

/-- C6 (amended): on a gap rollback only the *pending* batch is
discarded (earlier full batches of ten stay in the Sink); identifiers of
all accepted rows, including the discarded ones, are persisted to the
deduplication set, while the in-run updates to `last_valid_vid` (310 was
set in memory, 0 is persisted) and to the date file are not persisted;
consequently any identifier in the persisted deduplication set — in
particular a discarded one — is never written to the Sink by any later
invocation. -/
theorem c6_discard_amended :
    (runMain cfg6 probe6 st6 =
      ({ vid := 310, dateStr := "", lastValid := 0, passCount := 0,
         gapCount := 0,
         seen := [310, 309, 308, 307, 306, 305, 304, 303, 302, 301, 300] },
       (List.range 10).map (fun k => extract_row (300 + k) recA))) ∧
    st6.lastValid = 0 ∧ st6.dateStr = "" ∧
    (∀ (cfg : Config) (st : PState) (ps : List (Nat → Outcome)),
      ∀ i ∈ st.seen, i ∉ rowIds (runSeq cfg st ps).2) := by
  refine ⟨by decide, by decide, by decide, ?_⟩
  intro cfg st ps i hi hmem
  exact ((runSeq_seen_inv cfg ps st).2.2.1 i hmem).2 hi

/-- C6 (witness): the never-written-later part of the amended theorem at
a concrete input: identifier 100, already in the dedup set, is not
written by a later invocation probing a matching record for it. -/
theorem c6_discard_witness :
    (100 : Nat) ∉ rowIds (runSeq cfg5 { st5 with seen := [100] } [probe5]).2 :=
  c6_discard_amended.2.2.2 cfg5 { st5 with seen := [100] } [probe5] 100
    (by decide)

/-- C2: pass cycling and window advance.  For any configuration with
`pass_limit = 3`, three consecutive all-gap invocations leave the
position unchanged for the first two (pass counter 1, then 2) and
advance it to the window end on the third, with the pass counter back to
0, the anchor and date unchanged and the gap counter accumulated.  The
second conjunct shows the final-pass advance with evidence: a record at
11 with a timestamp newer than the recorded one makes the engine update
the date file and set the position to 11 (the identifier carrying the
newest timestamp) instead of the window end. -/
theorem c2_pass_advance :
    (∀ (cfg : Config) (st : PState) (probe : Nat → Outcome),
      (∀ v, probe v = Outcome.ok []) → cfg.passLimit = 3 → st.passCount = 0 →
      st.gapCount + 3 * cfg.chunkSize < cfg.gapThreshold →
      (runMain cfg probe st).1.vid = st.vid ∧
      (runMain cfg probe st).1.passCount = 1 ∧
      (runSeq cfg st [probe, probe]).1.vid = st.vid ∧
      (runSeq cfg st [probe, probe]).1.passCount = 2 ∧
      runSeq cfg st [probe, probe, probe] =
        ({ vid := st.vid + cfg.chunkSize, dateStr := st.dateStr,
           lastValid := st.lastValid, passCount := 0,
           gapCount := st.gapCount + 3 * cfg.chunkSize, seen := st.seen },
         [])) ∧
    runMain cfg2 probe2 st2 =
      ({ vid := 11, dateStr := "2024-06-01T00:00:00", lastValid := 11,
         passCount := 0, gapCount := 1, seen := [11] },
       [extract_row 11 recD]) := by
  constructor
  · intro cfg st probe hε hpl hpc hg
    have h1 := runMain_empty cfg probe st hε (by omega)
    rw [if_neg (show ¬ cfg.passLimit ≤ st.passCount + 1 by omega)] at h1
    have h2 := runMain_empty cfg probe
      { vid := st.vid, dateStr := st.dateStr, lastValid := st.lastValid,
        passCount := st.passCount + 1,
        gapCount := st.gapCount + cfg.chunkSize, seen := st.seen } hε
      (by dsimp only; omega)
    dsimp only at h2
    rw [if_neg (show ¬ cfg.passLimit ≤ st.passCount + 1 + 1 by omega)] at h2
    have h3 := runMain_empty cfg probe
      { vid := st.vid, dateStr := st.dateStr, lastValid := st.lastValid,
        passCount := st.passCount + 1 + 1,
        gapCount := st.gapCount + cfg.chunkSize + cfg.chunkSize,
        seen := st.seen } hε
      (by dsimp only; omega)
    dsimp only at h3
    rw [if_pos (show cfg.passLimit ≤ st.passCount + 1 + 1 + 1 by omega)] at h3
    refine ⟨?_, ?_, ?_, ?_, ?_⟩
    · rw [h1]
    · rw [h1]
      dsimp only
      omega
    · simp only [runSeq]
      rw [h1]
      dsimp only
      rw [h2]
    · simp only [runSeq]
      rw [h1]
      dsimp only
      rw [h2]
      dsimp only
      omega
    · simp only [runSeq]
      rw [h1]
      dsimp only
      rw [h2]
      dsimp only
      rw [h3]
      dsimp only
      simp only [List.append_nil, List.nil_append, Prod.mk.injEq,
        PState.mk.injEq]
      exact ⟨⟨trivial, trivial, trivial, trivial, by omega, trivial⟩, trivial⟩
  · decide

/-- C2 (witness): the pass-cycling part at a concrete input with
`pass_limit = 3`, chunk 5, window `[40, 45)`. -/
theorem c2_pass_advance_witness :
    runSeq cfgW2 stW2 [pEmpty, pEmpty, pEmpty] =
      ({ vid := 45, dateStr := "", lastValid := 2, passCount := 0,
         gapCount := 15, seen := [] }, []) :=
  (c2_pass_advance.1 cfgW2 stW2 pEmpty (fun _ => rfl) rfl rfl
    (by decide)).2.2.2.2

/-- C7 (counterexample): the claim says a `match` outcome first resets
`gap_count` and a rejected match then leaves it at 1.  In the code there
is no reset on the rejected path: with `gap_count = 5` loaded, a single
rejected match (record fails the keyword filter) persists `gap_count =
6`, not 1. -/
theorem c7_gap_reset_counterexample :
    st7.gapCount = 5 ∧
    passes_filters recBad = false ∧
    (fun (_ : Nat) => Outcome.ok [recBad]) st7.vid = Outcome.ok [recBad] ∧
    (runMain cfg7 (fun _ => Outcome.ok [recBad]) st7).1.gapCount = 6 ∧
    (runMain cfg7 (fun _ => Outcome.ok [recBad]) st7).1.gapCount ≠ 1 := by
  decide

/-- C7 (amended): on a `match` outcome the code does not pre-reset the
gap counter.  For a single-identifier window, an accepted new match
persists `gap_count = 0`, while a rejected or already-seen match
persists `gap_count = ` prior `+ 1` — the counter accumulates across
rejected matches instead of being clamped to 1. -/
theorem c7_gap_step_amended (cfg : Config) (probe : Nat → Outcome)
    (st : PState) (top : Rec) (rest : List Rec)
    (hprobe : probe st.vid = Outcome.ok (top :: rest))
    (hchunk : cfg.chunkSize = 1)
    (hq : st.gapCount + 1 < cfg.gapThreshold) :
    (runMain cfg probe st).1.gapCount =
      if passes_filters top && !(st.seen.contains st.vid) then 0
      else st.gapCount + 1 := by
  have hd : dispatch (initLoopSt st) (probe (initLoopSt st).vid) =
      StepRes.step
        { onMatch (initLoopSt st) top with vid := (initLoopSt st).vid + 1 } := by
    have hpv : probe (initLoopSt st).vid = Outcome.ok (top :: rest) := by
      dsimp only [initLoopSt]
      exact hprobe
    rw [hpv]
    rfl
  by_cases hacc : (passes_filters top && !(st.seen.contains st.vid)) = true
  · obtain ⟨hcoll, hseen, hwr, hlv, hg0, hmem⟩ :=
      onMatch_pos (initLoopSt st) top (by dsimp only [initLoopSt]; exact hacc)
    have hstep := loop_succ_step cfg probe 0 _ _ hd
      (by dsimp only; rw [hg0]; omega)
      (by dsimp only; rw [hcoll]; dsimp only [initLoopSt]; simp)
    have hl : loop cfg probe cfg.chunkSize (initLoopSt st) =
        LoopExit.finished
          { onMatch (initLoopSt st) top with
            vid := (initLoopSt st).vid + 1 } := by
      rw [hchunk, hstep, loop]
    obtain ⟨pps, heq, _, hgap, _⟩ := runMain_fin cfg probe st _ hl
    rw [heq]
    dsimp only
    rw [hgap]
    dsimp only
    rw [hg0, if_pos hacc]
  · have hneg := onMatch_neg (initLoopSt st) top
      (by dsimp only [initLoopSt]; simpa using hacc)
    rw [hneg] at hd
    have hstep := loop_succ_step cfg probe 0 _ _ hd
      (by dsimp only [initLoopSt]; omega)
      (by dsimp only [initLoopSt]; simp)
    have hl : loop cfg probe cfg.chunkSize (initLoopSt st) =
        LoopExit.finished
          { { initLoopSt st with gaps := (initLoopSt st).gaps + 1 } with
            vid := (initLoopSt st).vid + 1 } := by
      rw [hchunk, hstep, loop]
    obtain ⟨pps, heq, _, hgap, _⟩ := runMain_fin cfg probe st _ hl
    rw [heq]
    dsimp only
    rw [hgap]
    dsimp only [initLoopSt]
    rw [if_neg hacc]

/-- C7 (witness): the amended gap-step theorem at a concrete rejected
match (prior counter 5, persisted counter 6). -/
theorem c7_gap_step_witness :
    (runMain cfg7 (fun _ => Outcome.ok [recBad]) st7).1.gapCount =
      if passes_filters recBad && !(st7.seen.contains st7.vid) then 0
      else st7.gapCount + 1 :=
  c7_gap_step_amended cfg7 (fun _ => Outcome.ok [recBad]) st7 recBad []
    rfl rfl (by decide)

/-- C8 (counterexample): an invocation terminated early by the
forbidden-run budget still runs the pass/advance policy.  With an
all-403 window the loop breaks immediately, yet the persisted pass
counter is incremented from 0 to 1; and from `pass_count = 1` (final
pass, `PASS_LIMIT`-style limit 2) the position is advanced to the window
end 208 — both contradicting the claim that early-terminating
invocations neither increment `pass_count` nor advance to the window
end. -/
theorem c8_early_term_counterexample :
    probe8 200 = Outcome.forbidden ∧
    st3.passCount = 0 ∧
    runMain cfg3 probe8 st3 =
      ({ vid := 200, dateStr := "", lastValid := 7, passCount := 1,
         gapCount := 0, seen := [] }, []) ∧
    runMain cfg3 probe8 { st3 with passCount := 1 } =
      ({ vid := 208, dateStr := "", lastValid := 7, passCount := 0,
         gapCount := 0, seen := [] }, []) := by decide

/-- C8 (amended): only the gap-threshold rollback bypasses the
pass/advance policy — it returns with `pass_count` persisted as 0 and
the position set by the rollback resolution, never the window end via
the policy.  The forbidden-run termination instead falls through to the
post-loop code: the batch is flushed, state persisted, and the
pass/advance policy runs as if the window had been fully scanned (the
concrete conjunct shows `pass_count` incremented on an all-403
invocation). -/
theorem c8_pass_policy_amended :
    (∀ (cfg : Config) (probe : Nat → Outcome) (st : PState),
      (∀ v, probe v = Outcome.ok []) → st.lastValid ≠ 0 →
      st.gapCount < cfg.gapThreshold →
      cfg.gapThreshold ≤ st.gapCount + cfg.chunkSize →
      (runMain cfg probe st).1.passCount = 0 ∧
      (runMain cfg probe st).1.vid = st.lastValid) ∧
    runMain cfg3 probe8 st3 =
      ({ vid := 200, dateStr := "", lastValid := 7, passCount := 1,
         gapCount := 0, seen := [] }, []) := by
  constructor
  · intro cfg probe st hε hL hg0 hc
    rw [runMain_empty_roll cfg probe st hε hL hg0 hc]
    exact ⟨rfl, rfl⟩
  · decide

/-- C8 (witness): the gap-rollback part of the amended theorem at a
concrete input (pass counter 1 is reset to 0, position returns to the
anchor 9, not the window end). -/
theorem c8_pass_policy_witness :
    (runMain cfg9 pEmpty stW8).1.passCount = 0 ∧
    (runMain cfg9 pEmpty stW8).1.vid = stW8.lastValid :=
  c8_pass_policy_amended.1 cfg9 pEmpty stW8 (fun _ => rfl) (by decide)
    (by decide) (by decide)
